import Mathlib

/-!
# Verification of the aviator crash-game core

Shallow embedding of the aviator repository's simulation core, together
with proofs of the specification's claims about it.

Embedded source files:
* `MockGameEngine` (round state machine, crash-point generator, history,
  subscriber snapshots) — from the engine source shipped with the README.
* `ViewportSystem` (`src/game/systems/ViewportSystem.ts`).
* `ParticleSystem` (`src/game/systems/ParticleSystem.ts`).
* `AviatorScene` lifecycle and `updateState` (`src/game/AviatorScene.ts`).

Modelling conventions:
* JS numbers are embedded as `ℚ` where the code only manipulates finite
  values, and as `JsNum` (an explicit NaN/±Infinity/finite split with
  IEEE-style comparison semantics) where the code's NaN/Infinity handling
  is the point of the claim.  Rational arithmetic is exact; none of the
  claims proved here depend on the 2⁻⁵² rounding of doubles.
* `Math.exp` is embedded as `Real.exp`; the engine state that flows
  through it lives in `ℝ`.
* JS object identity (references, aliasing) is embedded with an explicit
  address-indexed heap where a claim is about aliasing.
* `Math.random()` draws are passed in as explicit arguments.
-/

namespace Aviator

/-- Game phases, from `GameState` in `types.ts`. -/
inductive GameState where
  | IDLE
  | BETTING
  | FLYING
  | CRASHED
deriving DecidableEq, Repr

/-- `Number.prototype.toFixed(2)` followed by `parseFloat`, i.e. rounding
to two decimal places (round-half-up, as `round` does on ℚ), on finite
rational values. -/
def round2 (x : ℚ) : ℚ := (round (x * 100) : ℤ) / 100

/-!
## MockGameEngine.generateNextCrashPoint

```ts
private generateNextCrashPoint() {
  if (Math.random() < 0.01) { this.crashPoint = 1.00; return; }
  const r = Math.random();
  let crash = 0.99 / (1 - r);
  if (crash > 100) crash = 100;
  if (crash < 1) crash = 1;
  this.crashPoint = parseFloat(crash.toFixed(2));
}
```
The two `Math.random()` draws are the arguments `r0` (instant-crash test)
and `r` (distribution draw). -/
def generateNextCrashPoint (r0 r : ℚ) : ℚ :=
  if r0 < 1/100 then 1
  else
    let crash := (99/100) / (1 - r)
    let crash := if crash > 100 then 100 else crash
    let crash := if crash < 1 then 1 else crash
    round2 crash

/-!
## ViewportSystem (`src/game/systems/ViewportSystem.ts`)
-/

/-- The `Viewport` record of `ViewportSystem`. -/
structure Viewport where
  scaleX : ℚ
  scaleY : ℚ
  maxTimeWindow : ℚ
  maxMultWindow : ℚ
deriving DecidableEq, Repr

/-- The `SceneDimensions` argument of `ViewportSystem.update`. -/
structure SceneDimensions where
  width : ℚ
  height : ℚ
  paddingLeft : ℚ
  paddingBottom : ℚ
deriving DecidableEq, Repr

namespace ViewportSystem

/-- The constructor's initial viewport. -/
def init : Viewport :=
  { scaleX := 1, scaleY := 1, maxTimeWindow := 10, maxMultWindow := 2 }

/-- `ViewportSystem.update(elapsedSeconds, multiplier, dimensions)`. -/
def update (v : Viewport) (elapsedSeconds multiplier : ℚ)
    (dims : SceneDimensions) : Viewport :=
  let maxTimeWindow :=
    if elapsedSeconds > v.maxTimeWindow * (8/10) then
      max (elapsedSeconds / (8/10)) 10
    else v.maxTimeWindow
  let maxMultWindow :=
    if multiplier > v.maxMultWindow * (8/10) then
      max (multiplier / (8/10)) 2
    else v.maxMultWindow
  let availWidth := max (dims.width - dims.paddingLeft) 100
  let availHeight := max (dims.height - dims.paddingBottom) 100
  { scaleX := availWidth / max maxTimeWindow (1/10)
    scaleY := availHeight / max (maxMultWindow - 1) (1/10)
    maxTimeWindow := maxTimeWindow
    maxMultWindow := maxMultWindow }

/-- `ViewportSystem.reset()`. -/
def reset (v : Viewport) : Viewport :=
  { v with maxTimeWindow := 10, maxMultWindow := 2 }

end ViewportSystem

/-!
## ParticleSystem (`src/game/systems/ParticleSystem.ts`)

Particle objects are identified by their allocation identity (a `ℕ`):
the pool content and the claims about it depend only on which object a
reference denotes, not on the object's numeric fields.  A pool's free
list is a JS array used with `push`/`pop`, i.e. the last list element is
the top of the stack.  `nextId` mints identities for the fresh objects a
`get*` call allocates when the free list is empty.
-/

/-- One object pool (`particlePool` or `explosionParticlePool`). -/
structure Pool where
  free : List ℕ
  nextId : ℕ
deriving DecidableEq, Repr

/-- `PERFORMANCE.MAX_POOL_SIZE` (`src/game/config/constants.ts`). -/
def MAX_POOL_SIZE : ℕ := 100

namespace Pool

/-- The state of one pool after `initPools()`: `MAX_POOL_SIZE` fresh
objects pushed onto the free list. -/
def init : Pool := { free := List.range MAX_POOL_SIZE, nextId := MAX_POOL_SIZE }

/-- `getParticle()` / `getExplosionParticle()`: pop the last array
element if the free list is non-empty, otherwise allocate a fresh
object. -/
def acquire (p : Pool) : ℕ × Pool :=
  match p.free.getLast? with
  | some x => (x, { p with free := p.free.dropLast })
  | none => (p.nextId, { p with nextId := p.nextId + 1 })

/-- `recycleParticle(particle)` / `recycleExplosionParticle(particle)`:
push the object back only while the free list is shorter than
`MAX_POOL_SIZE`. -/
def recycle (p : Pool) (x : ℕ) : Pool :=
  if p.free.length < MAX_POOL_SIZE then { p with free := p.free ++ [x] } else p

end Pool

/-- The two independent pools of a `ParticleSystem`. -/
structure ParticleSystem where
  particlePool : Pool
  explosionParticlePool : Pool
deriving DecidableEq, Repr

/-- One call against a `ParticleSystem`; `recycle*` carries the identity
of the object the caller passes back. -/
inductive PoolOp where
  | getParticle
  | getExplosionParticle
  | recycleParticle (x : ℕ)
  | recycleExplosionParticle (x : ℕ)
deriving DecidableEq, Repr

namespace ParticleSystem

/-- The constructor: `initPools()` fills both pools. -/
def init : ParticleSystem :=
  { particlePool := Pool.init, explosionParticlePool := Pool.init }

/-- Execute one call (the returned particle of a `get*` call is dropped;
the claims only concern the pool state). -/
def step (s : ParticleSystem) (op : PoolOp) : ParticleSystem :=
  match op with
  | .getParticle => { s with particlePool := (s.particlePool.acquire).2 }
  | .getExplosionParticle =>
      { s with explosionParticlePool := (s.explosionParticlePool.acquire).2 }
  | .recycleParticle x => { s with particlePool := s.particlePool.recycle x }
  | .recycleExplosionParticle x =>
      { s with explosionParticlePool := s.explosionParticlePool.recycle x }

/-- Execute a sequence of calls. -/
def run (s : ParticleSystem) (ops : List PoolOp) : ParticleSystem :=
  ops.foldl step s

end ParticleSystem

/-!
### Caller discipline for recycling

The spec obliges callers not to retain a reference to a particle after
recycling it.  `HeldStep` replays a call sequence while tracking the
multiset of identities currently held out of the plain-particle pool and
rejects (`none`) any `recycleParticle` whose argument the caller does
not currently hold.  (The discipline is stated for the plain pool; the
explosion pool is structurally identical.)
-/

/-- One disciplined step on the plain-particle pool: the pool plus the
list of identities the caller currently holds. -/
def HeldStep (s : Pool × List ℕ) (op : PoolOp) : Option (Pool × List ℕ) :=
  match op with
  | .getParticle => some ((s.1.acquire).2, (s.1.acquire).1 :: s.2)
  | .recycleParticle x =>
      if x ∈ s.2 then some (s.1.recycle x, s.2.erase x) else none
  | _ => some s

/-- Replay a disciplined call sequence from a state. -/
def HeldRun (s : Pool × List ℕ) (ops : List PoolOp) : Option (Pool × List ℕ) :=
  ops.foldlM HeldStep s

/-- The well-formedness invariant of a disciplined pool state: no
duplicates in the free list or among the held-out identities, the two
are disjoint, and `nextId` dominates every identity in play. -/
def PoolWF (s : Pool × List ℕ) : Prop :=
  s.1.free.Nodup ∧ s.2.Nodup ∧ (∀ x ∈ s.1.free, x ∉ s.2) ∧
    (∀ x ∈ s.1.free, x < s.1.nextId) ∧ (∀ x ∈ s.2, x < s.1.nextId)

/-!
## MockGameEngine: round state machine

The engine state lives in `ℝ` because the FLYING multiplier passes
through `Math.exp`.  `Date.now()` timestamps are milliseconds (`ℤ`);
each `tick` receives the single `now` it reads at its top, and the
further `Date.now()` calls inside the same tick (phase-entry
`startTime`, the history timestamp) are identified with it.  The random
draws a BETTING entry consumes are the explicit arguments `r0`, `r`.
-/

/-- `toFixed(2)` + `parseFloat` on a real value. -/
noncomputable def round2R (x : ℝ) : ℝ := ((round (x * 100) : ℤ) : ℝ) / 100

/-- `GameHistoryItem` from `types.ts`. -/
structure GameHistoryItem where
  multiplier : ℝ
  roundId : ℕ
  timestamp : ℤ

/-- `EngineState` from `types.ts` (the `this.state` object). -/
structure EngineState where
  gameState : GameState
  currentMultiplier : ℝ
  countdown : ℝ
  history : List GameHistoryItem

/-- The private fields of `MockGameEngine` that drive the state machine
(listener bookkeeping is modelled separately, with the heap model
below). -/
structure Engine where
  state : EngineState
  crashPoint : ℝ
  startTime : ℤ
  roundIdCounter : ℕ

/-- `BETTING_DURATION` (seconds). -/
def BETTING_DURATION : ℚ := 5

/-- `POST_CRASH_DURATION` (seconds). -/
def POST_CRASH_DURATION : ℚ := 3

/-- The raw FLYING multiplier
`Math.exp(0.065 * (flightTime / 1000))` for a flight time in ms. -/
noncomputable def rawMultiplier (flightTimeMs : ℤ) : ℝ :=
  Real.exp ((65/1000) * ((flightTimeMs : ℝ) / 1000))

/-- The displayed multiplier a FLYING tick stores:
`parseFloat(rawMultiplier.toFixed(2))`. -/
noncomputable def displayedMultiplier (flightTimeMs : ℤ) : ℝ :=
  round2R (rawMultiplier flightTimeMs)

namespace Engine

/-- `enterBettingPhase()`; `r0`, `r` are the draws
`generateNextCrashPoint()` consumes. -/
noncomputable def enterBettingPhase (now : ℤ) (r0 r : ℚ) (e : Engine) : Engine :=
  { e with
    state := { e.state with gameState := .BETTING, currentMultiplier := 1 }
    startTime := now
    crashPoint := ((generateNextCrashPoint r0 r : ℚ) : ℝ) }

/-- `enterFlyingPhase()`. -/
noncomputable def enterFlyingPhase (now : ℤ) (e : Engine) : Engine :=
  { e with
    state := { e.state with gameState := .FLYING, currentMultiplier := 1 }
    startTime := now }

/-- `enterCrashedPhase()`: snap the multiplier to the exact crash point
and prepend the round's history item, keeping the last 20 entries
(`[newItem, ...history].slice(0, 20)`). -/
noncomputable def enterCrashedPhase (now : ℤ) (e : Engine) : Engine :=
  { e with
    state := { e.state with
      gameState := .CRASHED
      currentMultiplier := e.crashPoint
      history :=
        ({ multiplier := e.crashPoint, roundId := e.roundIdCounter, timestamp := now } ::
          e.state.history).take 20 }
    startTime := now
    roundIdCounter := e.roundIdCounter + 1 }

/-- `tick()`, evaluated at wall-clock instant `now` (ms). -/
noncomputable def tick (now : ℤ) (r0 r : ℚ) (e : Engine) : Engine :=
  match e.state.gameState with
  | .BETTING =>
      let elapsed := ((now - e.startTime : ℤ) : ℝ) / 1000
      let remaining := max 0 ((BETTING_DURATION : ℝ) - elapsed)
      let e' : Engine := { e with state := { e.state with countdown := remaining } }
      if remaining ≤ 0 then enterFlyingPhase now e' else e'
  | .FLYING =>
      let disp := displayedMultiplier (now - e.startTime)
      let e' : Engine := { e with state := { e.state with currentMultiplier := disp } }
      if disp ≥ e.crashPoint then enterCrashedPhase now e' else e'
  | .CRASHED =>
      if ((now - e.startTime : ℤ) : ℝ) / 1000 > (POST_CRASH_DURATION : ℝ) then
        enterBettingPhase now r0 r e
      else e
  | .IDLE => e

end Engine

/-- A concrete engine in the FLYING phase about to crash (crash point
1.00, flight started at `startTime = 0`). -/
noncomputable def engineExample : Engine :=
  { state := { gameState := .FLYING, currentMultiplier := 1, countdown := 0,
               history := [] }
    crashPoint := 1
    startTime := 0
    roundIdCounter := 1 }

/-!
## MockGameEngine: subscriber snapshot delivery (object identity)

```ts
public subscribe(listener: EngineEventListener): () => void {
  this.listeners.add(listener);
  listener(this.state); // Immediate update
  return () => this.listeners.delete(listener);
}
private emit() {
  this.listeners.forEach(listener => listener({ ...this.state }));
}
```

JS objects are heap references; whether a listener receives a defensive
copy is a question about identity, not values.  The embedding uses an
explicit heap: top-level state objects (`StateObj`, holding the
`history` field as the address of an array object) and array objects
live at `ℕ` addresses; the engine's `this.state` is the address
`stateAddr`.  History items are opaque (`ℕ`): only the identity of the
array matters here.
-/

/-- The content of one `EngineState` object on the heap; `historyAddr`
is the reference the `history` field holds. -/
structure StateObj where
  gameState : GameState
  currentMultiplier : ℚ
  countdown : ℚ
  historyAddr : ℕ
deriving DecidableEq, Repr

/-- A heap of state objects and history arrays; addresses `≥ nextObj`
(resp. `≥ nextArr`) are unallocated. -/
structure Heap where
  objAt : ℕ → StateObj
  nextObj : ℕ
  arrAt : ℕ → List ℕ
  nextArr : ℕ

/-- The reference `subscribe` hands to the listener for the immediate
update: `listener(this.state)` passes the internal object itself. -/
def subscribeDeliver (stateAddr : ℕ) : ℕ := stateAddr

/-- The reference `emit` hands to each listener:
`listener({ ...this.state })` allocates a fresh object whose fields are
copied shallowly — in particular `historyAddr` still points at the
engine's own history array. -/
def emitDeliver (h : Heap) (stateAddr : ℕ) : Heap × ℕ :=
  ({ h with
      objAt := fun b => if b = h.nextObj then h.objAt stateAddr else h.objAt b
      nextObj := h.nextObj + 1 },
   h.nextObj)

/-- A subscriber mutating the `currentMultiplier` field of the object it
received. -/
def writeMultiplier (h : Heap) (a : ℕ) (v : ℚ) : Heap :=
  { h with
    objAt := fun b =>
      if b = a then { h.objAt a with currentMultiplier := v } else h.objAt b }

/-- A subscriber mutating the history array it can reach from the object
it received (e.g. `snapshot.history.unshift(item)`). -/
def pushHistory (h : Heap) (a : ℕ) (item : ℕ) : Heap :=
  { h with
    arrAt := fun b => if b = a then item :: h.arrAt b else h.arrAt b }

/-- A one-object heap for concrete runs: the engine state object lives
at address 0 with multiplier 1 and an empty history array at address
0. -/
def exampleHeap : Heap :=
  { objAt := fun _ => { gameState := .IDLE, currentMultiplier := 1,
                        countdown := 0, historyAddr := 0 }
    nextObj := 1
    arrAt := fun _ => []
    nextArr := 1 }

/-!
## JS numbers with NaN and infinities

`AviatorScene.updateState` validates its arguments with `<` and `isNaN`,
so its embedding needs the IEEE comparison semantics of JS numbers: any
comparison involving NaN is false, and the infinities compare in the
usual order.  Finite values are exact rationals (the claims below never
depend on the 2⁻⁵² rounding of doubles, and signed zero plays no role in
the code paths modelled).
-/

/-- A JS number: NaN, ±Infinity, or a finite value. -/
inductive JsNum where
  | nan
  | posInf
  | negInf
  | num (q : ℚ)
deriving DecidableEq, Repr

namespace JsNum

/-- `isNaN(x)`. -/
def isNaN : JsNum → Bool
  | nan => true
  | _ => false

/-- `x < y` with IEEE semantics: false whenever an operand is NaN. -/
def lt : JsNum → JsNum → Bool
  | nan, _ => false
  | _, nan => false
  | negInf, negInf => false
  | negInf, _ => true
  | posInf, _ => false
  | num _, posInf => true
  | num _, negInf => false
  | num a, num b => decide (a < b)

/-- `x > y`. -/
def gt (x y : JsNum) : Bool := lt y x

/-- `x - y`. -/
def sub : JsNum → JsNum → JsNum
  | nan, _ => nan
  | _, nan => nan
  | posInf, posInf => nan
  | posInf, _ => posInf
  | negInf, negInf => nan
  | negInf, _ => negInf
  | num _, posInf => negInf
  | num _, negInf => posInf
  | num a, num b => num (a - b)

/-- `x * y`. -/
def mul : JsNum → JsNum → JsNum
  | nan, _ => nan
  | _, nan => nan
  | posInf, posInf => posInf
  | posInf, negInf => negInf
  | negInf, posInf => negInf
  | negInf, negInf => posInf
  | posInf, num b => if b > 0 then posInf else if b < 0 then negInf else nan
  | num a, posInf => if a > 0 then posInf else if a < 0 then negInf else nan
  | negInf, num b => if b > 0 then negInf else if b < 0 then posInf else nan
  | num a, negInf => if a > 0 then negInf else if a < 0 then posInf else nan
  | num a, num b => num (a * b)

/-- `x / y` (division by zero follows JS: `1/0 = Infinity`,
`0/0 = NaN`; the sign of zero is ignored). -/
def div : JsNum → JsNum → JsNum
  | nan, _ => nan
  | _, nan => nan
  | posInf, posInf => nan
  | posInf, negInf => nan
  | negInf, posInf => nan
  | negInf, negInf => nan
  | posInf, num b => if b < 0 then negInf else posInf
  | negInf, num b => if b < 0 then posInf else negInf
  | num _, posInf => num 0
  | num _, negInf => num 0
  | num a, num b =>
      if b = 0 then (if a > 0 then posInf else if a < 0 then negInf else nan)
      else num (a / b)

/-- `Math.abs(x)`. -/
def abs : JsNum → JsNum
  | nan => nan
  | posInf => posInf
  | negInf => posInf
  | num a => num |a|

/-- `Math.max(x, y)`: NaN-propagating maximum. -/
def maxJ (x y : JsNum) : JsNum :=
  if x.isNaN || y.isNaN then nan else if x.lt y then y else x

end JsNum

/-!
## AviatorScene (`src/game/AviatorScene.ts`)

The scene state below holds every field that `updateState`,
`resetScene`, `updateViewport`, `destroy`/`safeDestroyApp` and the
modelled part of `init` read or write.  Pixi graphics objects
(clear/redraw surfaces) and the exhaust/explosion particle arrays with
their pools are not part of this state: drawing has no effect on it, and
the pools are verified separately through the `ParticleSystem` model
above, whose push/pop logic is identical to the private pool methods of
`AviatorScene`.  The one sprite-or-graphics plane is a single modelled
plane with presence, visibility, alpha, position and rotation.
-/

/-- The `flyAwayPhysics` record of `AviatorScene`. -/
structure FlyAwayPhysics where
  x : JsNum
  y : JsNum
  vx : JsNum
  vy : JsNum
  rotation : JsNum
  angularVelocity : JsNum
  scale : JsNum
  alpha : JsNum
  active : Bool
deriving DecidableEq, Repr

/-- The modelled mutable state of an `AviatorScene` instance. -/
structure SceneState where
  isInitialized : Bool
  isDestroyed : Bool
  isMobile : Bool
  hasApp : Bool
  width : ℚ
  height : ℚ
  currentState : GameState
  currentMultiplier : JsNum
  elapsedSeconds : JsNum
  curvePoints : List (JsNum × JsNum)
  trailPoints : List (JsNum × JsNum × JsNum)
  planePresent : Bool
  planeVisible : Bool
  planeAlpha : JsNum
  planeX : JsNum
  planeY : JsNum
  planeRotation : JsNum
  planeScale : JsNum
  planeRotationTarget : JsNum
  planeRotationCurrent : JsNum
  flightTime : JsNum
  flyAway : FlyAwayPhysics
  flyAwayStartX : JsNum
  flyAwayStartY : JsNum
  crashFlashAlpha : JsNum
  scaleX : JsNum
  scaleY : JsNum
  maxTimeWindow : JsNum
  maxMultWindow : JsNum
deriving DecidableEq, Repr

/-- The IEEE-754 double value of `Math.PI`, as an exact rational. -/
def jsPI : ℚ := 884279719003555 / 281474976710656

namespace AviatorScene

/-- `PADDING_LEFT` (responsive getter). -/
def PADDING_LEFT (s : SceneState) : ℚ := if s.isMobile then 40 else 60

/-- `PADDING_BOTTOM` (responsive getter). -/
def PADDING_BOTTOM (s : SceneState) : ℚ := if s.isMobile then 40 else 60

/-- `updateViewport()` (lines 993-1006): grow the time/multiplier
windows past the 80% threshold and recompute the scale factors. -/
def updateViewport (s : SceneState) : SceneState :=
  let maxTimeWindow :=
    if (s.elapsedSeconds.gt (s.maxTimeWindow.mul (.num (8/10)))) then
      JsNum.maxJ (s.elapsedSeconds.div (.num (8/10))) (.num 10)
    else s.maxTimeWindow
  let maxMultWindow :=
    if (s.currentMultiplier.gt (s.maxMultWindow.mul (.num (8/10)))) then
      JsNum.maxJ (s.currentMultiplier.div (.num (8/10))) (.num 2)
    else s.maxMultWindow
  let availWidth : ℚ := max (s.width - PADDING_LEFT s) 100
  let availHeight : ℚ := max (s.height - PADDING_BOTTOM s) 100
  { s with
    maxTimeWindow := maxTimeWindow
    maxMultWindow := maxMultWindow
    scaleX := (JsNum.num availWidth).div (JsNum.maxJ maxTimeWindow (.num (1/10)))
    scaleY := (JsNum.num availHeight).div
      (JsNum.maxJ (maxMultWindow.sub (.num 1)) (.num (1/10))) }

/-- `resetScene()` (lines 950-991), restricted to the modelled state;
particle recycling and the graphics `clear()` calls act outside it. -/
def resetScene (s : SceneState) : SceneState :=
  let s := { s with curvePoints := [(.num 0, .num 1)], trailPoints := [] }
  let s :=
    if s.planePresent then
      { s with
        planeVisible := true
        planeAlpha := .num 1
        planeX := .num (PADDING_LEFT s)
        planeY := .num (s.height - PADDING_BOTTOM s)
        planeRotation := .num (-1/10) }
    else s
  let s := { s with
    planeScale := .num 1
    planeRotationTarget := .num (-1/10)
    planeRotationCurrent := .num (-1/10)
    flightTime := .num 0
    flyAway := { s.flyAway with active := false }
    crashFlashAlpha := .num 0
    maxTimeWindow := .num 10
    maxMultWindow := .num 2
    currentMultiplier := .num 1
    elapsedSeconds := .num 0 }
  updateViewport s

/-- `updateState(state, multiplier, elapsedSeconds)` (lines 893-948).
The `typeof multiplier !== 'number'` disjunct is vacuous here: every
`JsNum` is a number.  `createExplosion` and the exhaust-particle
recycling on the CRASHED transition act only on the particle arrays and
pools, which are outside the modelled state. -/
def updateState (s : SceneState) (state : GameState)
    (multiplier elapsedSeconds : JsNum) : SceneState :=
  if !s.isInitialized || s.isDestroyed then s
  else if multiplier.lt (.num 1) || multiplier.isNaN then s
  else if elapsedSeconds.lt (.num 0) || elapsedSeconds.isNaN then s
  else
    let s := { s with currentMultiplier := multiplier,
                      elapsedSeconds := elapsedSeconds }
    let s :=
      if state ≠ s.currentState then
        let s :=
          if state = .BETTING then resetScene s
          else if state = .CRASHED then
            if s.planePresent then
              { s with
                flyAway :=
                  { x := s.planeX, y := s.planeY
                    vx := .num 0, vy := .num 0
                    rotation := s.planeRotationCurrent
                    angularVelocity := .num (jsPI * 3)
                    scale := .num 1, alpha := .num 1, active := true }
                flyAwayStartX := s.planeX
                flyAwayStartY := s.planeY
                crashFlashAlpha := .num 1 }
            else s
          else s
        { s with currentState := state }
      else s
    if state = .FLYING then
      let s :=
        if s.planePresent then
          { s with planeVisible := true, planeAlpha := .num 1 }
        else s
      let threshold : ℚ := if s.isMobile then 8/100 else 5/100
      match s.curvePoints.getLast? with
      | none =>
          { s with curvePoints := s.curvePoints ++ [(elapsedSeconds, multiplier)] }
      | some lastPoint =>
          if ((elapsedSeconds.sub lastPoint.1).abs.gt (.num threshold)) ||
             ((multiplier.sub lastPoint.2).abs.gt (.num threshold)) then
            { s with curvePoints := s.curvePoints ++ [(elapsedSeconds, multiplier)] }
          else s
    else s

/-- `safeDestroyApp()` (lines 1054-1090): a no-op without an app;
otherwise drop the plane objects and the render context. -/
def safeDestroyApp (s : SceneState) : SceneState :=
  if !s.hasApp then s
  else { s with hasApp := false, planePresent := false }

/-- `destroy()` (lines 1092-1097). -/
def destroy (s : SceneState) : SceneState :=
  if s.isDestroyed then s
  else safeDestroyApp { s with isDestroyed := true, isInitialized := false }

/-- `init()` (lines 232-291), modelled around its awaited render-context
allocation: `destroyDuringAwait` says whether `destroy()` ran while
`await this.app.init(...)` was pending.  On resumption the code checks
`isDestroyed` (lines 254-257) and tears the context down instead of
finishing; otherwise it creates the plane, resets the scene and marks
the scene initialized. -/
def init (s : SceneState) (destroyDuringAwait : Bool) : SceneState :=
  if s.isInitialized || s.isDestroyed then s
  else
    let s1 := { s with hasApp := true }
    let s2 := if destroyDuringAwait then destroy s1 else s1
    if s2.isDestroyed then safeDestroyApp s2
    else
      let s3 := resetScene { s2 with planePresent := true }
      { s3 with isInitialized := true }

end AviatorScene

/-- A concrete initialized desktop scene in the FLYING phase, for
concrete runs of `updateState`. -/
def exampleScene : SceneState :=
  { isInitialized := true, isDestroyed := false, isMobile := false, hasApp := true
    width := 800, height := 600
    currentState := .FLYING
    currentMultiplier := .num 1, elapsedSeconds := .num 0
    curvePoints := [(.num 0, .num 1)], trailPoints := []
    planePresent := true, planeVisible := true, planeAlpha := .num 1
    planeX := .num 60, planeY := .num 540, planeRotation := .num (-1/10)
    planeScale := .num 1
    planeRotationTarget := .num (-1/10), planeRotationCurrent := .num (-1/10)
    flightTime := .num 0
    flyAway := { x := .num 0, y := .num 0, vx := .num 0, vy := .num 0
                 rotation := .num 0, angularVelocity := .num 0
                 scale := .num 1, alpha := .num 1, active := false }
    flyAwayStartX := .num 0, flyAwayStartY := .num 0
    crashFlashAlpha := .num 0
    scaleX := .num 1, scaleY := .num 1
    maxTimeWindow := .num 10, maxMultWindow := .num 2 }

/-!
## Lemmas about rounding
-/

/-- `round2` is monotone. -/
theorem round2_mono {x y : ℚ} (h : x ≤ y) : round2 x ≤ round2 y := by
  unfold round2
  have hr : round (x * 100) ≤ round (y * 100) := by
    rw [round_eq, round_eq]
    exact Int.floor_le_floor (by linarith)
  have : ((round (x * 100) : ℤ) : ℚ) ≤ ((round (y * 100) : ℤ) : ℚ) := by
    exact_mod_cast hr
  linarith

/-- `round2` fixes integers (in particular the clamp bounds 1 and 100). -/
theorem round2_intCast (n : ℤ) : round2 ((n : ℤ) : ℚ) = n := by
  unfold round2
  have h : ((n : ℚ) * 100) = ((n * 100 : ℤ) : ℚ) := by push_cast; ring
  rw [h, round_intCast]
  push_cast
  ring

/-- `round2 1 = 1`. -/
theorem round2_one : round2 1 = 1 := by
  have := round2_intCast 1
  norm_num at this
  exact this

/-- `round2 100 = 100`. -/
theorem round2_hundred : round2 100 = 100 := by
  have := round2_intCast 100
  norm_num at this
  exact this

/-- `round2` keeps values inside `[1, 100]`. -/
theorem round2_bounds {x : ℚ} (h1 : 1 ≤ x) (h2 : x ≤ 100) :
    1 ≤ round2 x ∧ round2 x ≤ 100 :=
  ⟨round2_one ▸ round2_mono h1, round2_hundred ▸ round2_mono h2⟩

/-!
## C3: the crash-point generator
-/

/-- C3: for every draw `r ∈ [0,1)` and every outcome of the 1%
instant-crash test `r0`, the generated crash point lies in
`[1.00, 100.00]`; the instant branch yields exactly 1.00, and otherwise
the result is `0.99 / (1 - r)` clamped to `[1, 100]` and rounded to two
decimals. -/
theorem crashPoint_spec (r0 r : ℚ) (h0 : 0 ≤ r) (h1 : r < 1) :
    (1 ≤ generateNextCrashPoint r0 r ∧ generateNextCrashPoint r0 r ≤ 100) ∧
    (r0 < 1/100 → generateNextCrashPoint r0 r = 1) ∧
    (¬ r0 < 1/100 →
      generateNextCrashPoint r0 r =
        round2 (min 100 (max 1 ((99/100) / (1 - r))))) := by
  have hden : (0:ℚ) < 1 - r := by linarith
  by_cases hins : r0 < 1/100
  · refine ⟨?_, fun _ => ?_, fun hc => absurd hins hc⟩
    · unfold generateNextCrashPoint
      rw [if_pos hins]
      norm_num
    · unfold generateNextCrashPoint
      rw [if_pos hins]
  · have hcl : generateNextCrashPoint r0 r =
        round2 (min 100 (max 1 ((99/100) / (1 - r)))) := by
      unfold generateNextCrashPoint
      rw [if_neg hins]
      dsimp only
      by_cases hbig : (99:ℚ)/100 / (1 - r) > 100
      · rw [if_pos hbig, if_neg (by norm_num : ¬ (100:ℚ) < 1),
          min_eq_left (le_max_of_le_right hbig.le)]
      · rw [if_neg hbig]
        push_neg at hbig
        by_cases hsmall : (99:ℚ)/100 / (1 - r) < 1
        · rw [if_pos hsmall, max_eq_left hsmall.le,
            min_eq_right (by norm_num : (1:ℚ) ≤ 100)]
        · rw [if_neg hsmall]
          push_neg at hsmall
          rw [max_eq_right hsmall, min_eq_right hbig]
    refine ⟨?_, fun hc => absurd hc hins, fun _ => hcl⟩
    rw [hcl]
    have hle : 1 ≤ min 100 (max 1 ((99/100) / (1 - r))) := by
      rcases le_total ((99:ℚ)/100 / (1 - r)) 100 with hb | hb
      · rw [min_eq_right (max_le (by norm_num) hb)]
        exact le_max_left _ _
      · rw [min_eq_left (le_max_of_le_right hb)]
        norm_num
    have hge : min 100 (max 1 ((99/100) / (1 - r))) ≤ 100 := min_le_left _ _
    exact round2_bounds hle hge

/-- Witness for C3 at the concrete draws `r0 = 1/2`, `r = 1/2`
(crash `= 0.99 / 0.5 = 1.98`). -/
theorem crashPoint_spec_witness :
    1 ≤ generateNextCrashPoint (1/2) (1/2) ∧
      generateNextCrashPoint (1/2) (1/2) ≤ 100 :=
  (crashPoint_spec (1/2) (1/2) (by norm_num) (by norm_num)).1

/-!
## C6: viewport windows only grow
-/

/-- One `update` call never shrinks either window. -/
theorem update_window_mono (v : Viewport) (e m : ℚ) (d : SceneDimensions) :
    v.maxTimeWindow ≤ (ViewportSystem.update v e m d).maxTimeWindow ∧
    v.maxMultWindow ≤ (ViewportSystem.update v e m d).maxMultWindow := by
  unfold ViewportSystem.update
  dsimp only
  constructor
  · split
    · rename_i hcond
      have h : v.maxTimeWindow < e / (8/10) := by
        rw [lt_div_iff₀ (by norm_num : (0:ℚ) < 8/10)]
        linarith
      exact h.le.trans (le_max_left _ _)
    · exact le_refl _
  · split
    · rename_i hcond
      have h : v.maxMultWindow < m / (8/10) := by
        rw [lt_div_iff₀ (by norm_num : (0:ℚ) < 8/10)]
        linarith
      exact h.le.trans (le_max_left _ _)
    · exact le_refl _

/-- C6: across any `update` call the windows never decrease (hence
across any sequence of calls, stated through a fold); a window grows to
`max (value / 0.8) floor` exactly when its value exceeds 80% of the
window, and `reset` restores the defaults `10` and `2.0`. -/
theorem viewport_update_spec :
    (∀ (v : Viewport) (e m : ℚ) (d : SceneDimensions),
      v.maxTimeWindow ≤ (ViewportSystem.update v e m d).maxTimeWindow ∧
      v.maxMultWindow ≤ (ViewportSystem.update v e m d).maxMultWindow) ∧
    (∀ (v : Viewport) (e m : ℚ) (d : SceneDimensions),
      (ViewportSystem.update v e m d).maxTimeWindow =
        (if e > v.maxTimeWindow * (8/10) then max (e / (8/10)) 10
         else v.maxTimeWindow) ∧
      (ViewportSystem.update v e m d).maxMultWindow =
        (if m > v.maxMultWindow * (8/10) then max (m / (8/10)) 2
         else v.maxMultWindow)) ∧
    (∀ (steps : List (ℚ × ℚ × SceneDimensions)) (v : Viewport),
      v.maxTimeWindow ≤
        (steps.foldl (fun w st => ViewportSystem.update w st.1 st.2.1 st.2.2)
          v).maxTimeWindow ∧
      v.maxMultWindow ≤
        (steps.foldl (fun w st => ViewportSystem.update w st.1 st.2.1 st.2.2)
          v).maxMultWindow) ∧
    (∀ v : Viewport, (ViewportSystem.reset v).maxTimeWindow = 10 ∧
      (ViewportSystem.reset v).maxMultWindow = 2) := by
  refine ⟨update_window_mono, ?_, ?_, fun v => ⟨rfl, rfl⟩⟩
  · intro v e m d
    constructor <;> (unfold ViewportSystem.update; dsimp only)
  · intro steps
    induction steps with
    | nil => exact fun v => ⟨le_refl _, le_refl _⟩
    | cons st rest ih =>
        intro v
        have h1 := update_window_mono v st.1 st.2.1 st.2.2
        have h2 := ih (ViewportSystem.update v st.1 st.2.1 st.2.2)
        exact ⟨h1.1.trans h2.1, h1.2.trans h2.2⟩

/-!
## C10: lifecycle guard of updateState
-/

/-- C10: a call to `updateState` before initialization completed or
after `destroy()` is a silent no-op, whatever the arguments. -/
theorem updateState_lifecycle_guard_spec (s : SceneState) (st : GameState)
    (mult el : JsNum) (h : s.isInitialized = false ∨ s.isDestroyed = true) :
    AviatorScene.updateState s st mult el = s := by
  unfold AviatorScene.updateState
  rcases h with h | h <;> simp [h]

/-- Witness for C10: a destroyed scene ignores a valid FLYING update. -/
theorem updateState_lifecycle_guard_spec_witness :
    AviatorScene.updateState { exampleScene with isDestroyed := true }
        .FLYING (.num 2) (.num 1) =
      { exampleScene with isDestroyed := true } :=
  updateState_lifecycle_guard_spec _ _ _ _ (Or.inr rfl)

/-!
## C4: argument validation of updateState

The validation (lines 896-897) is

```ts
if (typeof multiplier !== 'number' || multiplier < 1 || isNaN(multiplier)) return;
if (typeof elapsedSeconds !== 'number' || elapsedSeconds < 0 || isNaN(elapsedSeconds)) return;
```

`Infinity < 1` is false and `isNaN(Infinity)` is false, so a call with
`multiplier = Infinity` (or `elapsedSeconds = Infinity`) passes the
guard and mutates the scene — the claim that every non-finite multiplier
is rejected fails on `+Infinity`.  (`-Infinity < 1` is true, so
`-Infinity` is rejected by the `< 1` test, and NaN by `isNaN`.)
-/

/-- Evaluating the accepted `Infinity` call on the concrete scene: the
guard passes and the scene is mutated. -/
theorem updateState_posInf_eval :
    AviatorScene.updateState exampleScene .FLYING .posInf (.num 1) =
      { exampleScene with
        currentMultiplier := .posInf
        elapsedSeconds := .num 1
        curvePoints := [(.num 0, .num 1), (.num 1, .posInf)] } := by
  unfold AviatorScene.updateState
  norm_num [exampleScene, JsNum.lt, JsNum.isNaN, JsNum.gt, JsNum.sub, JsNum.abs]

/-- Counterexample to C4: `updateState(FLYING, Infinity, 1.0)` on an
initialized FLYING scene is accepted and overwrites
`currentMultiplier` (and is therefore not a no-op). -/
theorem updateState_infinity_cex :
    (AviatorScene.updateState exampleScene .FLYING .posInf (.num 1)).currentMultiplier
        = .posInf ∧
    exampleScene.currentMultiplier = .num 1 ∧
    AviatorScene.updateState exampleScene .FLYING .posInf (.num 1) ≠ exampleScene := by
  rw [updateState_posInf_eval]
  refine ⟨rfl, rfl, fun hcontra => ?_⟩
  have h : JsNum.posInf = JsNum.num 1 :=
    congrArg SceneState.currentMultiplier hcontra
  exact JsNum.noConfusion h

/-- C4 (amended): `updateState` is a no-op exactly on the rejections the
code performs — `multiplier` NaN or `< 1` in IEEE order (which rejects
`-Infinity` but accepts `+Infinity`), or `elapsedSeconds` NaN or `< 0`;
in particular `updateState(FLYING, NaN, 1.0)` leaves the state unchanged
and, the function being total, throws no exception. -/
theorem updateState_reject_spec (s : SceneState) (st : GameState)
    (mult el : JsNum)
    (h : mult.isNaN = true ∨ mult.lt (.num 1) = true ∨
         el.isNaN = true ∨ el.lt (.num 0) = true) :
    AviatorScene.updateState s st mult el = s := by
  unfold AviatorScene.updateState
  by_cases hg : (!s.isInitialized || s.isDestroyed) = true
  · rw [if_pos hg]
  · rw [if_neg hg]
    by_cases hm : (mult.lt (.num 1) || mult.isNaN) = true
    · rw [if_pos hm]
    · rw [if_neg hm]
      have he : (el.lt (.num 0) || el.isNaN) = true := by
        rcases h with h | h | h | h
        · exact absurd (by simp [h]) hm
        · exact absurd (by simp [h]) hm
        · simp [h]
        · simp [h]
      rw [if_pos he]

/-- Witness for C4 (amended): the NaN scenario of the spec,
`updateState(FLYING, NaN, 1.0)`, leaves the concrete scene unchanged. -/
theorem updateState_reject_spec_witness :
    AviatorScene.updateState exampleScene .FLYING .nan (.num 1) = exampleScene :=
  updateState_reject_spec exampleScene .FLYING .nan (.num 1) (Or.inl rfl)

/-!
## C9: destroy idempotence and the init/destroy race
-/

/-- After any `destroy()` the destroyed flag is set. -/
theorem destroy_isDestroyed (s : SceneState) :
    (AviatorScene.destroy s).isDestroyed = true := by
  unfold AviatorScene.destroy AviatorScene.safeDestroyApp
  by_cases h : s.isDestroyed = true
  · rw [if_pos h]; exact h
  · rw [if_neg h]; split <;> rfl

/-- C9: `destroy()` is idempotent — a second call returns with every
field unchanged — and a `destroy()` issued while `init()` is pending
still ends with no live render context: initialization resumes, sees the
destroyed flag and tears the context down. -/
theorem destroy_idempotent_spec :
    (∀ s : SceneState,
      AviatorScene.destroy (AviatorScene.destroy s) = AviatorScene.destroy s) ∧
    (∀ s : SceneState, s.isDestroyed = true → AviatorScene.destroy s = s) ∧
    (∀ s : SceneState, s.isInitialized = false → s.isDestroyed = false →
      (AviatorScene.init s true).hasApp = false ∧
      (AviatorScene.init s true).isInitialized = false ∧
      (AviatorScene.init s true).isDestroyed = true) := by
  have hguard : ∀ s : SceneState, s.isDestroyed = true →
      AviatorScene.destroy s = s := by
    intro s h
    unfold AviatorScene.destroy
    rw [if_pos h]
  refine ⟨fun s => hguard _ (destroy_isDestroyed s), hguard, ?_⟩
  intro s h1 h2
  unfold AviatorScene.init AviatorScene.destroy AviatorScene.safeDestroyApp
  simp [h1, h2]

/-- Witness for C9: a second `destroy()` on a destroyed concrete scene
changes nothing, and a `destroy()` racing `init()` on an uninitialized
concrete scene leaves no render context. -/
theorem destroy_idempotent_spec_witness :
    AviatorScene.destroy { exampleScene with isDestroyed := true } =
      { exampleScene with isDestroyed := true } ∧
    (AviatorScene.init { exampleScene with isInitialized := false } true).hasApp
      = false :=
  ⟨destroy_idempotent_spec.2.1 _ rfl,
   (destroy_idempotent_spec.2.2 { exampleScene with isInitialized := false }
      rfl rfl).1⟩

/-!
## C5: snapshots handed to subscribers
-/

/-- Counterexample to C5: the immediate invocation inside `subscribe`
passes the internal state object itself (`listener(this.state)`), so a
subscriber writing to the received snapshot changes the engine state:
with the engine state at address 0 holding multiplier 1, writing 42
through the delivered reference makes the engine read 42.  Moreover the
per-tick shallow copy `{ ...this.state }` shares the history array:
pushing an item through the emitted snapshot changes the history the
engine reads (from `[]` to `[7]`). -/
theorem snapshot_aliasing_cex :
    subscribeDeliver 0 = 0 ∧
    ((writeMultiplier exampleHeap (subscribeDeliver 0) 42).objAt 0).currentMultiplier
      = 42 ∧
    (exampleHeap.objAt 0).currentMultiplier = 1 ∧
    (pushHistory (emitDeliver exampleHeap 0).1
        (((emitDeliver exampleHeap 0).1.objAt (emitDeliver exampleHeap 0).2).historyAddr)
        7).arrAt ((exampleHeap.objAt 0).historyAddr) = [7] ∧
    exampleHeap.arrAt ((exampleHeap.objAt 0).historyAddr) = [] :=
  ⟨rfl, rfl, rfl, rfl, rfl⟩

/-- C5 (amended): the per-tick notification hands each subscriber a
fresh shallow copy — a top-level object distinct from the engine state,
so mutating a scalar field of it leaves the engine state unchanged — but
the immediate invocation inside `subscribe` passes the internal state
object itself, and the shallow copy still shares the history array with
the engine. -/
theorem snapshot_delivery_spec (h : Heap) (stateAddr : ℕ) (v : ℚ)
    (hvalid : stateAddr < h.nextObj) :
    (emitDeliver h stateAddr).2 ≠ stateAddr ∧
    (writeMultiplier (emitDeliver h stateAddr).1 (emitDeliver h stateAddr).2 v).objAt
        stateAddr = h.objAt stateAddr ∧
    subscribeDeliver stateAddr = stateAddr ∧
    ((emitDeliver h stateAddr).1.objAt (emitDeliver h stateAddr).2).historyAddr =
      (h.objAt stateAddr).historyAddr := by
  have hne : stateAddr ≠ h.nextObj := Nat.ne_of_lt hvalid
  refine ⟨fun hc => hne hc.symm, ?_, rfl, ?_⟩
  · simp [writeMultiplier, emitDeliver, hne]
  · simp [emitDeliver]

/-- Witness for C5 (amended) on the concrete one-object heap. -/
theorem snapshot_delivery_spec_witness :
    (emitDeliver exampleHeap 0).2 ≠ 0 ∧
    (writeMultiplier (emitDeliver exampleHeap 0).1 (emitDeliver exampleHeap 0).2
        42).objAt 0 = exampleHeap.objAt 0 :=
  ⟨(snapshot_delivery_spec exampleHeap 0 42 (by decide)).1,
   (snapshot_delivery_spec exampleHeap 0 42 (by decide)).2.1⟩

/-!
## C7: the pools never exceed the configured maximum
-/

/-- An acquire never lengthens the free list. -/
theorem Pool.acquire_length_le (p : Pool) :
    (p.acquire).2.free.length ≤ p.free.length := by
  unfold Pool.acquire
  cases h : p.free.getLast? with
  | some x =>
      dsimp only
      rw [List.length_dropLast]
      omega
  | none => exact le_refl _

/-- A recycle keeps the free list within the cap. -/
theorem Pool.recycle_length_le {p : Pool} (x : ℕ)
    (h : p.free.length ≤ MAX_POOL_SIZE) :
    (p.recycle x).free.length ≤ MAX_POOL_SIZE := by
  unfold Pool.recycle
  split
  · rename_i hlt
    simp only [List.length_append, List.length_singleton]
    omega
  · exact h

/-- One call keeps both pools within the cap. -/
theorem ParticleSystem.step_length_le {s : ParticleSystem} (op : PoolOp)
    (h1 : s.particlePool.free.length ≤ MAX_POOL_SIZE)
    (h2 : s.explosionParticlePool.free.length ≤ MAX_POOL_SIZE) :
    (s.step op).particlePool.free.length ≤ MAX_POOL_SIZE ∧
    (s.step op).explosionParticlePool.free.length ≤ MAX_POOL_SIZE := by
  cases op with
  | getParticle => exact ⟨(Pool.acquire_length_le _).trans h1, h2⟩
  | getExplosionParticle => exact ⟨h1, (Pool.acquire_length_le _).trans h2⟩
  | recycleParticle x => exact ⟨Pool.recycle_length_le x h1, h2⟩
  | recycleExplosionParticle x => exact ⟨h1, Pool.recycle_length_le x h2⟩

/-- Any call sequence keeps both pools within the cap. -/
theorem ParticleSystem.run_length_le (ops : List PoolOp) :
    ∀ s : ParticleSystem, s.particlePool.free.length ≤ MAX_POOL_SIZE →
      s.explosionParticlePool.free.length ≤ MAX_POOL_SIZE →
      (ParticleSystem.run s ops).particlePool.free.length ≤ MAX_POOL_SIZE ∧
      (ParticleSystem.run s ops).explosionParticlePool.free.length ≤
        MAX_POOL_SIZE := by
  induction ops with
  | nil => exact fun s h1 h2 => ⟨h1, h2⟩
  | cons op rest ih =>
      intro s h1 h2
      have h := ParticleSystem.step_length_le op h1 h2
      exact ih _ h.1 h.2

/-- C7: from a freshly constructed `ParticleSystem`, no sequence of
acquire/recycle calls pushes either free list beyond
`MAX_POOL_SIZE = 100`, because a recycle pushes only while the list is
strictly below the maximum and otherwise drops the particle. -/
theorem pool_size_bound_spec :
    (∀ ops : List PoolOp,
      (ParticleSystem.run ParticleSystem.init ops).particlePool.free.length ≤
        MAX_POOL_SIZE ∧
      (ParticleSystem.run ParticleSystem.init ops).explosionParticlePool.free.length ≤
        MAX_POOL_SIZE) ∧
    MAX_POOL_SIZE = 100 ∧
    (∀ (p : Pool) (x : ℕ),
      p.recycle x =
        if p.free.length < MAX_POOL_SIZE then { p with free := p.free ++ [x] }
        else p) := by
  refine ⟨fun ops => ?_, rfl, fun p x => rfl⟩
  have hlen : (ParticleSystem.init).particlePool.free.length = MAX_POOL_SIZE := by
    simp [ParticleSystem.init, Pool.init]
  have hlen2 : (ParticleSystem.init).explosionParticlePool.free.length =
      MAX_POOL_SIZE := by
    simp [ParticleSystem.init, Pool.init]
  exact ParticleSystem.run_length_le ops ParticleSystem.init hlen.le hlen2.le

/-!
## C8: duplicates in the free list

`recycleParticle` performs no membership check, so recycling the same
object twice while the pool has room stores it twice.  The double
recycle is only impossible for disciplined callers (the spec obliges
callers not to retain a recycled reference), under which the free list
stays duplicate-free.
-/

/-- Counterexample to C8: acquire two particles, then pass the first one
to `recycleParticle` twice — the free list (98 entries after the two
pops, hence below the cap both times) ends with object 99 stored twice.
-/
theorem pool_duplicate_cex :
    ¬ (ParticleSystem.run ParticleSystem.init
        [.getParticle, .getParticle, .recycleParticle 99, .recycleParticle 99]
      ).particlePool.free.Nodup := by decide

/-- A disciplined step preserves the pool invariant. -/
theorem HeldStep_wf {s s' : Pool × List ℕ} {op : PoolOp}
    (hwf : PoolWF s) (hstep : HeldStep s op = some s') : PoolWF s' := by
  obtain ⟨hfree, hheld, hdisj, hfb, hhb⟩ := hwf
  cases op with
  | getExplosionParticle =>
      injection hstep with h
      subst h
      exact ⟨hfree, hheld, hdisj, hfb, hhb⟩
  | recycleExplosionParticle x =>
      injection hstep with h
      subst h
      exact ⟨hfree, hheld, hdisj, hfb, hhb⟩
  | getParticle =>
      injection hstep with h
      subst h
      unfold Pool.acquire
      cases hL : s.1.free.getLast? with
      | some x =>
          have hxmem : x ∈ s.1.free := List.mem_of_mem_getLast? (by simp [hL])
          have hsplit : s.1.free.dropLast ++ [x] = s.1.free :=
            List.dropLast_append_getLast? x hL
          have hdl : ∀ y ∈ s.1.free.dropLast, y ∈ s.1.free :=
            fun y hy => (List.dropLast_sublist s.1.free).mem hy
          have hnotlast : ∀ y ∈ s.1.free.dropLast, y ≠ x := by
            intro y hy
            have := List.nodup_append.mp (hsplit ▸ hfree)
            exact fun hyx => this.2.2 hy (by simp [hyx])
          simp only [hL]
          refine ⟨(List.dropLast_sublist s.1.free).nodup hfree, ?_, ?_, ?_, ?_⟩
          · exact List.nodup_cons.mpr ⟨hdisj x hxmem, hheld⟩
          · intro y hy
            simp only [List.mem_cons, not_or]
            exact ⟨hnotlast y hy, hdisj y (hdl y hy)⟩
          · exact fun y hy => hfb y (hdl y hy)
          · intro y hy
            rcases List.mem_cons.mp hy with h | h
            · exact h ▸ hfb x hxmem
            · exact hhb y h
      | none =>
          have hnil : s.1.free = [] := by simpa using hL
          simp only [hL]
          refine ⟨by simp [hnil], ?_, by simp [hnil], by simp [hnil], ?_⟩
          · refine List.nodup_cons.mpr ⟨fun hmem => ?_, hheld⟩
            exact absurd (hhb _ hmem) (lt_irrefl _)
          · intro y hy
            rcases List.mem_cons.mp hy with h | h
            · simp [h]
            · exact (hhb y h).trans (Nat.lt_succ_self _)
  | recycleParticle x =>
      unfold HeldStep at hstep
      dsimp only at hstep
      by_cases hx : x ∈ s.2
      · rw [if_pos hx] at hstep
        injection hstep with h
        subst h
        unfold Pool.recycle
        have hxfree : x ∉ s.1.free := fun hmem => hdisj x hmem hx
        have herase : ∀ y, y ∈ s.2.erase x → y ∈ s.2 :=
          fun y hy => List.mem_of_mem_erase hy
        split
        · refine ⟨?_, hheld.erase x, ?_, ?_, fun y hy => hhb y (herase y hy)⟩
          · exact List.nodup_append.mpr
              ⟨hfree, List.nodup_singleton x,
               fun y hy hyx => hxfree ((List.mem_singleton.mp hyx) ▸ hy)⟩
          · intro y hy
            rcases List.mem_append.mp hy with h | h
            · exact fun hc => hdisj y h (herase y hc)
            · rw [List.mem_singleton.mp h]
              exact hheld.not_mem_erase
          · intro y hy
            rcases List.mem_append.mp hy with h | h
            · exact hfb y h
            · rw [List.mem_singleton.mp h]
              exact hhb x hx
        · exact ⟨hfree, hheld.erase x,
            fun y hy hc => hdisj y hy (herase y hc), hfb,
            fun y hy => hhb y (herase y hy)⟩
      · rw [if_neg hx] at hstep
        exact Option.noConfusion hstep

/-- A disciplined run preserves the pool invariant. -/
theorem HeldRun_wf (ops : List PoolOp) :
    ∀ {s s' : Pool × List ℕ}, PoolWF s → HeldRun s ops = some s' →
      PoolWF s' := by
  induction ops with
  | nil =>
      intro s s' hwf hrun
      injection hrun with h
      exact h ▸ hwf
  | cons op rest ih =>
      intro s s' hwf hrun
      unfold HeldRun at hrun
      rw [List.foldlM_cons] at hrun
      cases hstep : HeldStep s op with
      | none => rw [hstep] at hrun; exact Option.noConfusion hrun
      | some s1 =>
          rw [hstep] at hrun
          exact ih (HeldStep_wf hwf hstep) hrun

/-- C8 (amended): for disciplined call sequences — each recycled
particle is one the caller still holds from an acquire, relinquished at
the recycle — the free list never contains the same object twice.  (The
unconditional claim fails: see the counterexample.) -/
theorem pool_nodup_spec (ops : List PoolOp) (s' : Pool × List ℕ)
    (h : HeldRun (Pool.init, []) ops = some s') :
    s'.1.free.Nodup := by
  have hwf0 : PoolWF (Pool.init, []) := by
    refine ⟨List.nodup_range _, List.nodup_nil, by simp, ?_, by simp⟩
    intro x hx
    simpa [Pool.init] using List.mem_range.mp (by simpa [Pool.init] using hx)
  exact (HeldRun_wf ops hwf0 h).1

/-- Witness for C8 (amended): acquire one particle and recycle it once;
the resulting free list is duplicate-free. -/
theorem pool_nodup_spec_witness :
    ((List.range MAX_POOL_SIZE).dropLast ++ [99]).Nodup :=
  pool_nodup_spec [.getParticle, .recycleParticle 99]
    ({ free := (List.range MAX_POOL_SIZE).dropLast ++ [99],
       nextId := MAX_POOL_SIZE }, [])
    (by decide)

/-!
## Lemmas about the FLYING multiplier curve
-/

/-- `round2R` is monotone. -/
theorem round2R_mono {x y : ℝ} (h : x ≤ y) : round2R x ≤ round2R y := by
  unfold round2R
  have hr : round (x * 100) ≤ round (y * 100) := by
    rw [round_eq, round_eq]
    exact Int.floor_le_floor (by linarith)
  have : ((round (x * 100) : ℤ) : ℝ) ≤ ((round (y * 100) : ℤ) : ℝ) := by
    exact_mod_cast hr
  linarith

/-- The raw exponential multiplier is monotone in the flight time. -/
theorem rawMultiplier_mono {t1 t2 : ℤ} (h : t1 ≤ t2) :
    rawMultiplier t1 ≤ rawMultiplier t2 := by
  unfold rawMultiplier
  apply Real.exp_le_exp.mpr
  have hc : (t1 : ℝ) ≤ (t2 : ℝ) := Int.cast_le.mpr h
  linarith

/-- The displayed multiplier is monotone in the flight time. -/
theorem displayedMultiplier_mono {t1 t2 : ℤ} (h : t1 ≤ t2) :
    displayedMultiplier t1 ≤ displayedMultiplier t2 :=
  round2R_mono (rawMultiplier_mono h)

/-- At flight time 0 the displayed multiplier is exactly 1.00. -/
theorem displayedMultiplier_zero : displayedMultiplier 0 = 1 := by
  unfold displayedMultiplier rawMultiplier round2R
  norm_num [Real.exp_zero]

/-!
## C1: the crash tick
-/

/-- C1: on the first FLYING tick whose displayed multiplier reaches the
crash point, the engine snaps the multiplier to exactly `crashPoint`,
prepends `{crashPoint, roundId, now}` to the history with a round id
strictly above every earlier entry, keeps at most the 20 most recent
entries, and moves to CRASHED; moreover every tick, in any phase, keeps
`history.length ≤ 20`, and the new entry sits at index 0. -/
theorem engine_crash_tick_spec (now : ℤ) (r0 r : ℚ) (e : Engine)
    (hphase : e.state.gameState = .FLYING)
    (hge : displayedMultiplier (now - e.startTime) ≥ e.crashPoint)
    (hids : ∀ item ∈ e.state.history, item.roundId < e.roundIdCounter) :
    (Engine.tick now r0 r e).state.currentMultiplier = e.crashPoint ∧
    (Engine.tick now r0 r e).state.gameState = .CRASHED ∧
    (Engine.tick now r0 r e).state.history =
      ({ multiplier := e.crashPoint, roundId := e.roundIdCounter,
         timestamp := now } :: e.state.history).take 20 ∧
    (Engine.tick now r0 r e).state.history.head? =
      some { multiplier := e.crashPoint, roundId := e.roundIdCounter,
             timestamp := now } ∧
    (∀ item ∈ (Engine.tick now r0 r e).state.history.tail,
        item.roundId < e.roundIdCounter) ∧
    (Engine.tick now r0 r e).roundIdCounter = e.roundIdCounter + 1 ∧
    (∀ (now' : ℤ) (r0' r' : ℚ) (e' : Engine),
        e'.state.history.length ≤ 20 →
        (Engine.tick now' r0' r' e').state.history.length ≤ 20) := by
  obtain ⟨⟨gs, cm, cd, hist⟩, cp, st0, ric⟩ := e
  simp only at hphase hge hids
  subst hphase
  have hlen20 : ∀ (now' : ℤ) (r0' r' : ℚ) (e' : Engine),
      e'.state.history.length ≤ 20 →
      (Engine.tick now' r0' r' e').state.history.length ≤ 20 := by
    intro now' r0' r' e' hlen
    obtain ⟨⟨gs', cm', cd', hist'⟩, cp', st1, ric'⟩ := e'
    simp only at hlen
    cases gs' <;>
      simp only [Engine.tick, Engine.enterFlyingPhase, Engine.enterBettingPhase,
        Engine.enterCrashedPhase] <;>
      (try split) <;>
      simp_all [List.length_take]
  simp only [Engine.tick, Engine.enterCrashedPhase]
  rw [if_pos hge]
  refine ⟨rfl, rfl, rfl, ?_, ?_, rfl, hlen20⟩
  · rw [List.take_succ_cons]
    rfl
  · rw [List.take_succ_cons]
    intro item hitem
    exact hids item (List.take_subset _ _ hitem)

/-- Witness for C1: with crash point 1.00 and flight time 0, the tick
crashes the round and snaps the multiplier to the crash point. -/
theorem engine_crash_tick_spec_witness :
    (Engine.tick 0 (1/2) (1/2) engineExample).state.currentMultiplier =
      engineExample.crashPoint ∧
    (Engine.tick 0 (1/2) (1/2) engineExample).state.gameState = .CRASHED := by
  have h := engine_crash_tick_spec 0 (1/2) (1/2) engineExample rfl
    (by
      show displayedMultiplier (0 - engineExample.startTime) ≥
        engineExample.crashPoint
      have h0 : (0 - engineExample.startTime : ℤ) = 0 := by
        show (0 - 0 : ℤ) = 0
        norm_num
      rw [h0, displayedMultiplier_zero]
      show (1:ℝ) ≥ 1
      exact le_refl 1)
    (by intro item hitem; exact absurd hitem (List.not_mem_nil item))
  exact ⟨h.1, h.2.1⟩

/-!
## C2: the FLYING multiplier curve
-/

/-- C2: a FLYING tick that stays below the crash point publishes exactly
`exp(0.065 · t)` rounded to two decimals for `t` the seconds since phase
entry and stays in FLYING; that displayed value is monotone in the
flight time (so the published multiplier never decreases over the ticks
of one FLYING phase, wall clocks being monotone); entering FLYING sets
the multiplier to exactly 1.00, and the curve itself starts at 1.00. -/
theorem flying_multiplier_spec :
    (∀ (now : ℤ) (r0 r : ℚ) (e : Engine),
        e.state.gameState = .FLYING →
        displayedMultiplier (now - e.startTime) < e.crashPoint →
        (Engine.tick now r0 r e).state.currentMultiplier =
          displayedMultiplier (now - e.startTime) ∧
        (Engine.tick now r0 r e).state.gameState = .FLYING) ∧
    (∀ t1 t2 : ℤ, t1 ≤ t2 →
        displayedMultiplier t1 ≤ displayedMultiplier t2) ∧
    (∀ (now : ℤ) (e : Engine),
        (Engine.enterFlyingPhase now e).state.currentMultiplier = 1) ∧
    displayedMultiplier 0 = 1 := by
  refine ⟨?_, fun t1 t2 h => displayedMultiplier_mono h, fun now e => rfl,
    displayedMultiplier_zero⟩
  intro now r0 r e hphase hlt
  obtain ⟨⟨gs, cm, cd, hist⟩, cp, st0, ric⟩ := e
  simp only at hphase hlt
  subst hphase
  simp only [Engine.tick]
  rw [if_neg (not_le.mpr hlt)]
  exact ⟨rfl, rfl⟩

/-- Witness for C2: a below-crash-point tick on the concrete engine,
with crash point raised to 2, publishes the curve value 1.00 and stays
FLYING; and the displayed curve is monotone between flight times 0 and
1000 ms. -/
theorem flying_multiplier_spec_witness :
    (Engine.tick 0 (1/2) (1/2) { engineExample with crashPoint := 2 }
      ).state.currentMultiplier =
      displayedMultiplier (0 - { engineExample with crashPoint := 2 }.startTime) ∧
    displayedMultiplier 0 ≤ displayedMultiplier 1000 := by
  refine ⟨?_, flying_multiplier_spec.2.1 0 1000 (by norm_num)⟩
  refine (flying_multiplier_spec.1 0 (1/2) (1/2)
    { engineExample with crashPoint := 2 } rfl ?_).1
  show displayedMultiplier (0 - engineExample.startTime) < 2
  have h0 : (0 - engineExample.startTime : ℤ) = 0 := by
    show (0 - 0 : ℤ) = 0
    norm_num
  rw [h0, displayedMultiplier_zero]
  norm_num

end Aviator
